import Mathlib

/-!
Shallow embedding of `python_src/lambda_function.py` and
`python_src/api_handler.py` (openobserve/otel-lambda-demo).

Modelling conventions:
* Python dicts that are built by literal syntax (possibly with `**` spread)
  are association lists `List (String × Jv)`; lookup takes the LAST binding,
  matching Python's last-write-wins on duplicate keys.
* `json.dumps` is embedded as `dumps` with Python's default separators.
* Machine-supplied data (clock readings, epoch seconds, measured durations,
  the stack-trace text of `traceback.format_exc()`) are oracle parameters.
* Exceptions raised by the simulated AWS / external-API bodies are injected
  through `Option String` fault oracles (the message of the raised
  exception); `Except String` threads the raise/except control flow.
* Observable side effects (span lifecycle, local logging, metric
  instrument calls, outbound HTTP requests) are collected in a trace of
  `Event`s, in source order.
-/

/-- JSON values, as produced by the Python dict/list/str/int/bool data the
handlers manipulate. -/
inductive Jv where
  | str (s : String)
  | nat (n : Nat)
  | int (i : Int)
  | bool (b : Bool)
  | null
  | arr (xs : List Jv)
  | obj (kvs : List (String × Jv))
deriving Repr

/-- Escape of one character inside a JSON string literal (quote and
backslash; the strings in this program contain no control characters). -/
def escChar (c : Char) : String :=
  if c = '"' then "\\\"" else if c = '\\' then "\\\\" else String.singleton c

/-- Escape of a JSON string body. -/
def escape (s : String) : String :=
  String.join (s.toList.map escChar)

mutual
/-- `json.dumps` with Python's default separators. -/
def dumps : Jv → String
  | .str s => "\"" ++ escape s ++ "\""
  | .nat n => toString n
  | .int i => toString i
  | .bool b => if b then "true" else "false"
  | .null => "null"
  | .arr xs => "[" ++ dumpsArr xs ++ "]"
  | .obj kvs => "\x7b" ++ dumpsObj kvs ++ "\x7d"

/-- Comma-joined serialization of a JSON array's elements. -/
def dumpsArr : List Jv → String
  | [] => ""
  | [x] => dumps x
  | x :: y :: xs => dumps x ++ ", " ++ dumpsArr (y :: xs)

/-- Comma-joined serialization of a JSON object's entries. -/
def dumpsObj : List (String × Jv) → String
  | [] => ""
  | [(k, v)] => "\"" ++ escape k ++ "\": " ++ dumps v
  | (k, v) :: y :: xs => "\"" ++ escape k ++ "\": " ++ dumps v ++ ", " ++ dumpsObj (y :: xs)
end

/-- Split of a character list at every occurrence of `c` (Python
`str.split` with an explicit one-character separator: no merging of
adjacent separators, empty input yields one empty field). -/
def splitOnChar (c : Char) : List Char → List (List Char)
  | [] => [[]]
  | x :: xs =>
      let r := splitOnChar c xs
      if x = c then [] :: r
      else
        match r with
        | [] => [[x]]
        | y :: ys => (x :: y) :: ys

/-- Python `s.split(sep)` for a one-character separator. -/
def pySplit (sep : Char) (s : String) : List String :=
  (splitOnChar sep s.toList).map String.mk

/-- Python dict lookup on an association list: the LAST binding of a key
wins, matching dict-literal semantics with `**` spreads. -/
def dget (kvs : List (String × Jv)) (k : String) : Option Jv :=
  ((kvs.filter (fun p => p.1 == k)).getLast?).map (·.2)

/-- UTF-8 bytes of one character (as in Python `str.encode()`). -/
def utf8Bytes (c : Char) : List Nat :=
  let n := c.toNat
  if n < 0x80 then [n]
  else if n < 0x800 then [0xC0 + n / 64, 0x80 + n % 64]
  else if n < 0x10000 then [0xE0 + n / 4096, 0x80 + (n / 64) % 64, 0x80 + n % 64]
  else [0xF0 + n / 262144, 0x80 + (n / 4096) % 64, 0x80 + (n / 64) % 64, 0x80 + n % 64]

/-- UTF-8 byte sequence of a string. -/
def strBytes (s : String) : List Nat :=
  (s.toList.map utf8Bytes).flatten

/-- The base64 alphabet. -/
def b64Digit (n : Nat) : Char :=
  "ABCDEFGHIJKLMNOPQRSTUVWXYZabcdefghijklmnopqrstuvwxyz0123456789+/".toList.getD n 'A'

/-- Standard base64 of a byte sequence, with padding
(as in Python `base64.b64encode`). -/
def b64Chunks : List Nat → String
  | [] => ""
  | [a] =>
      String.mk [b64Digit (a / 4), b64Digit ((a % 4) * 16)] ++ "=="
  | [a, b] =>
      String.mk [b64Digit (a / 4), b64Digit ((a % 4) * 16 + b / 16),
                 b64Digit ((b % 16) * 4)] ++ "="
  | a :: b :: c :: rest =>
      String.mk [b64Digit (a / 4), b64Digit ((a % 4) * 16 + b / 16),
                 b64Digit ((b % 16) * 4 + c / 64), b64Digit (c % 64)] ++ b64Chunks rest

/-- `base64.b64encode(s.encode()).decode()`. -/
def base64 (s : String) : String := b64Chunks (strBytes s)

/-- Python truthiness of an optional environment string: `None` and the
empty string are falsy. -/
def truthy : Option String → Bool
  | none => false
  | some s => !s.isEmpty

/-- Terminal status of a tracing span (`Status(StatusCode...)`). -/
inductive SpanStatus where
  | ok
  | error (msg : String)
deriving Repr, DecidableEq

/-- One observable side effect, recorded in source order. -/
inductive Event where
  | spanStart (name : String)
  | spanEnd (name : String)
  | spanStatus (name : String) (st : SpanStatus)
  | spanExn (name : String) (msg : String)
  | spanAttrs (name : String) (attrs : List (String × Jv))
  | localLog (level : String) (msg : String)
  | httpPost (url : String) (auth : Option String) (contentType : String)
      (body : Jv)
  | counterAdd (counter : String) (tags : List (String × String))
  | histRecord (hist : String) (value : Nat) (tags : List (String × String))
deriving Repr

/-- Outcome of the one `http.request` POST inside `send_logs`: either a
response with a status and body text, or a transport-level exception. -/
inductive HttpOutcome where
  | resp (status : Nat) (data : String)
  | exn (msg : String)
deriving Repr, DecidableEq

/-- The process environment variables the two modules read. -/
structure Env where
  base_endpoint : Option String
  username : Option String
  password : Option String
  organization : Option String
  stream : Option String
  fn_name : Option String
  region : Option String
deriving Repr, DecidableEq

/-- The `OpenObserveLogger` object state after `__init__`. -/
structure OpenObserveLogger where
  base_endpoint : Option String
  username : Option String
  password : Option String
  organization : Option String
  stream : String
  auth_header : Option String
deriving Repr, DecidableEq

/-- `OpenObserveLogger.__init__`: reads the sink configuration from the
environment and derives the Basic-auth header when username and password
are both truthy. -/
def OpenObserveLogger.init (env : Env) : OpenObserveLogger :=
  { base_endpoint := env.base_endpoint
    username := env.username
    password := env.password
    organization := env.organization
    stream := env.stream.getD "default"
    auth_header :=
      if truthy env.username && truthy env.password then
        some ("Basic " ++ base64 ((env.username.getD "") ++ ":" ++ (env.password.getD "")))
      else
        none }

/-- The argument dict of `send_logs`: `level`, `message`, and a `metadata`
sub-dict (each optional, with the defaults `send_logs` applies). -/
structure LogData where
  level : Option String
  message : Option String
  metadata : List (String × Jv)
deriving Repr

/-- The completeness gate of `send_logs`:
`all([self.base_endpoint, self.username, self.password, self.organization])`. -/
def OpenObserveLogger.configured (oo : OpenObserveLogger) : Bool :=
  truthy oo.base_endpoint && truthy oo.username && truthy oo.password &&
    truthy oo.organization

/-- The fixed envelope of a shipped log record (the six fields written
before `**log_data.get("metadata", {})` is spread on top). -/
def logEnvelope (service : String) (fnName : Option String) (ts : String)
    (log_data : LogData) (request_id : String) : List (String × Jv) :=
  [("timestamp", .str (ts ++ "Z")),
   ("level", .str (log_data.level.getD "info")),
   ("message", .str (log_data.message.getD "")),
   ("service", .str service),
   ("function_name", .str (fnName.getD "")),
   ("request_id", .str request_id)]

/-- `OpenObserveLogger.send_logs`. The two modules differ only in the span
name and the `service` field, passed as `spanName` / `service`. `fnName` is
`os.environ.get('AWS_LAMBDA_FUNCTION_NAME', '')`, `ts` the
`datetime.utcnow().isoformat()` reading, `outcome` the transport oracle.
Returns the full event trace; the catch-all `except` swallows transport
exceptions, and the `finally` always ends the span. -/
def OpenObserveLogger.send_logs (oo : OpenObserveLogger) (spanName service : String)
    (fnName : Option String) (ts : String) (outcome : HttpOutcome)
    (log_data : LogData) (request_id : String) : List Event :=
  [Event.spanStart spanName] ++
  (if !oo.configured then
    [Event.localLog "info" "OpenObserve credentials not configured, skipping custom log send"]
  else
    let url := (oo.base_endpoint.getD "") ++ "/api/" ++ (oo.organization.getD "") ++
      "/" ++ oo.stream ++ "/_json"
    let log_entry : List (String × Jv) :=
      logEnvelope service fnName ts log_data request_id ++ log_data.metadata
    [Event.localLog "info" ("Sending logs to OpenObserve: " ++ url),
     Event.httpPost url oo.auth_header "application/json" (.arr [.obj log_entry])] ++
    (match outcome with
     | .resp status data =>
        if 200 ≤ status ∧ status < 300 then
          [Event.localLog "info" "Successfully sent logs to OpenObserve",
           Event.spanStatus spanName .ok]
        else
          let error_msg := "Failed to send logs to OpenObserve: " ++ toString status ++ " " ++ data
          [Event.localLog "error" error_msg,
           Event.spanStatus spanName (.error error_msg)]
     | .exn e =>
        let error_msg := "Error sending logs to OpenObserve: " ++ e
        [Event.localLog "error" error_msg,
         Event.spanExn spanName e,
         Event.spanStatus spanName (.error error_msg)])) ++
  [Event.spanEnd spanName]

/-- The Lambda context object fields the two handlers read. -/
structure Ctx where
  aws_request_id : String
  function_name : String
  function_version : String
  invoked_function_arn : String
  remaining_time : Nat
deriving Repr, DecidableEq

/-- A handler response: status code, headers, and the object passed to
`json.dumps` for the body. -/
structure Response where
  statusCode : Nat
  headers : List (String × String)
  body : List (String × Jv)
deriving Repr

/-- `kvs.get(k, d)` for a string-valued field (the fields so accessed are
strings in well-formed events). -/
def jgetStr (kvs : List (String × Jv)) (k d : String) : String :=
  match dget kvs k with
  | some (.str s) => s
  | _ => d

/-- `kvs.get(k) or {}` / `kvs.get(k, {})` for a dict-valued field (absent
and `null` both collapse to the empty dict). -/
def jgetObj (kvs : List (String × Jv)) (k : String) : List (String × Jv) :=
  match dget kvs k with
  | some (.obj o) => o
  | _ => []

namespace lambda_function

/-- Injected exception messages for the two simulated AWS sub-operations
(`none` = the operation body completes without raising). -/
structure Faults where
  db : Option String
  s3 : Option String
deriving Repr, DecidableEq

/-- `simulate_dynamodb_operation`: span around a mocked DynamoDB put;
re-raises any fault after recording it; `finally` ends the span. -/
def simulate_dynamodb_operation (fault : Option String) (request_id : String)
    (epoch : Nat) : List Event × Except String (List (String × Jv)) :=
  let name := "dynamodb_operation"
  let pre : List Event :=
    [.spanStart name,
     .spanAttrs name [("db.system", .str "dynamodb"), ("db.operation", .str "put_item"),
       ("db.table", .str "demo-table"), ("request.id", .str request_id)],
     .localLog "info" "Simulating DynamoDB operation..."]
  match fault with
  | some e =>
      (pre ++ [.spanExn name e, .spanStatus name (.error e), .spanEnd name], .error e)
  | none =>
      let result : List (String × Jv) :=
        [("item_id", .str ("item_" ++ toString epoch)),
         ("request_id", .str request_id),
         ("status", .str "created")]
      (pre ++
       [.spanAttrs name [("db.item_id", .str ("item_" ++ toString epoch)),
          ("db.operation.status", .str "success")],
        .spanStatus name .ok, .spanEnd name], .ok result)

/-- `simulate_s3_operation`: span around a mocked S3 put; re-raises any
fault after recording it; `finally` ends the span. -/
def simulate_s3_operation (fault : Option String) (request_id : String) :
    List Event × Except String (List (String × Jv)) :=
  let name := "s3_operation"
  let pre : List Event :=
    [.spanStart name,
     .spanAttrs name [("aws.service", .str "s3"), ("aws.operation", .str "put_object"),
       ("aws.bucket", .str "demo-bucket"), ("request.id", .str request_id)],
     .localLog "info" "Simulating S3 operation..."]
  match fault with
  | some e =>
      (pre ++ [.spanExn name e, .spanStatus name (.error e), .spanEnd name], .error e)
  | none =>
      let result : List (String × Jv) :=
        [("object_key", .str ("logs/" ++ request_id ++ ".json")),
         ("bucket", .str "demo-bucket"),
         ("size", .nat 1024)]
      (pre ++
       [.spanAttrs name [("aws.s3.object_key", .str ("logs/" ++ request_id ++ ".json")),
          ("aws.s3.object_size", .nat 1024)],
        .spanStatus name .ok, .spanEnd name], .ok result)

/-- `process_business_logic`: runs the two simulated operations; on
success records the counter (status `success`) and duration histogram and
ships a success log; on a fault records the counter (status `error`),
ships an error log, records the exception and re-raises; `finally` ends
the span. `ship` is the transport oracle for its one `send_logs` call,
`procMs` the measured `processing_time`, `tb` the `format_exc()` text. -/
def process_business_logic (env : Env) (oo : OpenObserveLogger) (f : Faults)
    (ship : HttpOutcome) (ts tb : String) (epoch procMs : Nat)
    (request_id : String) (input_data : List (String × Jv)) :
    List Event × Except String (List (String × Jv)) :=
  let name := "process_business_logic"
  let pre : List Event :=
    [.spanStart name,
     .spanAttrs name [("request.id", .str request_id), ("input.type", .str "dict"),
       ("input.size", .nat (dumps (.obj input_data)).length)],
     .localLog "info" ("Processing business logic for request: " ++ request_id)]
  let errTail : String → List Event := fun e =>
    [Event.counterAdd "demo_requests_total"
       [("status", "error"), ("function", env.fn_name.getD "")]] ++
    oo.send_logs "send_logs_to_openobserve" "python-lambda-openobserve-demo" env.fn_name ts ship
      { level := some "error", message := some "Business logic processing failed",
        metadata := [("error_message", .str e), ("error_traceback", .str tb),
                     ("processing_time_ms", .nat procMs)] } request_id ++
    [Event.spanExn name e, Event.spanStatus name (.error e), Event.spanEnd name]
  let (dbT, dbR) := simulate_dynamodb_operation f.db request_id epoch
  match dbR with
  | .error e => (pre ++ dbT ++ errTail e, .error e)
  | .ok db_result =>
    let (s3T, s3R) := simulate_s3_operation f.s3 request_id
    match s3R with
    | .error e => (pre ++ dbT ++ s3T ++ errTail e, .error e)
    | .ok s3_result =>
      let result : List (String × Jv) :=
        [("request_id", .str request_id),
         ("processing_time_ms", .nat procMs),
         ("result", .str "Business logic completed successfully"),
         ("operations", .arr [.str "dynamodb", .str "s3", .str "processing"]),
         ("db_result", .obj db_result),
         ("s3_result", .obj s3_result)]
      (pre ++ dbT ++ s3T ++
       [Event.counterAdd "demo_requests_total"
          [("status", "success"), ("function", env.fn_name.getD "")],
        Event.histRecord "demo_processing_duration_ms" procMs [("operation", "business_logic")]] ++
       oo.send_logs "send_logs_to_openobserve" "python-lambda-openobserve-demo" env.fn_name ts ship
         { level := some "info", message := some "Business logic processing completed successfully",
           metadata := [("processing_time_ms", .nat procMs),
                        ("input_size", .nat (dumps (.obj input_data)).length),
                        ("operations_completed", .arr [.str "dynamodb", .str "s3", .str "processing"]),
                        ("db_result", .obj db_result),
                        ("s3_result", .obj s3_result)] } request_id ++
       [Event.spanAttrs name [("processing.duration_ms", .nat procMs),
          ("processing.status", .str "success"), ("operations.count", .nat 3)],
        Event.spanStatus name .ok, Event.spanEnd name],
       .ok result)

/-- `context.invoked_function_arn.split(':')[4] if context.invoked_function_arn else ''`:
raises `IndexError` when the ARN is truthy but has fewer than five
colon-separated parts. -/
def cloudAccountId (arn : String) : Except String String :=
  if arn == "" then .ok ""
  else
    match (pySplit ':' arn).get? 4 with
    | some s => .ok s
    | none => .error "list index out of range"

/-- `lambda_function.lambda_handler`: the generic-event entry point.
`ship0`/`ship1`/`shipP` are the transport oracles for the startup,
completion-or-error, and business-logic `send_logs` calls. Always returns
a response (the catch-all `except` builds the 500 response); `finally`
ends the top span. -/
def lambda_handler (env : Env) (f : Faults) (ship0 ship1 shipP : HttpOutcome)
    (ts tb : String) (epoch procMs : Nat)
    (ctx : Ctx) (event : List (String × Jv)) : List Event × Response :=
  let oo := OpenObserveLogger.init env
  let name := "lambda_handler"
  let sl : HttpOutcome → LogData → List Event := fun outcome ld =>
    oo.send_logs "send_logs_to_openobserve" "python-lambda-openobserve-demo" env.fn_name
      ts outcome ld ctx.aws_request_id
  let error_response : Response :=
    { statusCode := 500
      headers := [("Content-Type", "application/json"), ("X-Request-ID", ctx.aws_request_id)]
      body := [("error", .str "Internal server error"),
               ("requestId", .str ctx.aws_request_id),
               ("timestamp", .str (ts ++ "Z"))] }
  let exceptTail : String → List Event := fun e =>
    [Event.localLog "error" ("Lambda execution error: " ++ e)] ++
    sl ship1 { level := some "error", message := some "Lambda function execution failed",
               metadata := [("error_message", .str e), ("error_traceback", .str tb),
                            ("function_name", .str ctx.function_name)] } ++
    [Event.spanExn name e, Event.spanStatus name (.error e), Event.spanEnd name]
  let pre : List Event :=
    [Event.spanStart name,
     Event.localLog "info" ("Lambda function invoked with event: " ++ dumps (.obj event))]
  match cloudAccountId ctx.invoked_function_arn with
  | .error e => (pre ++ exceptTail e, error_response)
  | .ok acct =>
    let attrsEvt := Event.spanAttrs name
      [("faas.execution", .str ctx.aws_request_id), ("faas.id", .str ctx.function_name),
       ("faas.version", .str ctx.function_version), ("cloud.account.id", .str acct),
       ("cloud.region", .str (env.region.getD ""))]
    let startupT := sl ship0
      { level := some "info", message := some "Lambda function invocation started",
        metadata := [("function_name", .str ctx.function_name),
                     ("function_version", .str ctx.function_version),
                     ("remaining_time_ms", .nat ctx.remaining_time),
                     ("event_source", (dget event "source").getD (.str "unknown")),
                     ("event_size", .nat (dumps (.obj event)).length)] }
    let (pblT, pblR) :=
      process_business_logic env oo f shipP ts tb epoch procMs ctx.aws_request_id event
    match pblR with
    | .error e => (pre ++ [attrsEvt] ++ startupT ++ pblT ++ exceptTail e, error_response)
    | .ok result =>
      let completionT := sl ship1
        { level := some "info",
          message := some "Lambda function execution completed successfully",
          metadata := [("result", .obj result),
                       ("execution_duration_ms", .int ((30000 : Int) - ctx.remaining_time))] }
      let response : Response :=
        { statusCode := 200
          headers := [("Content-Type", "application/json"), ("X-Request-ID", ctx.aws_request_id)]
          body := [("message", .str "Function executed successfully"),
                   ("requestId", .str ctx.aws_request_id),
                   ("result", .obj result),
                   ("timestamp", .str (ts ++ "Z"))] }
      (pre ++ [attrsEvt] ++ startupT ++ pblT ++ completionT ++
       [Event.spanAttrs name [("lambda.execution.success", .bool true),
          ("response.status_code", .nat 200)],
        Event.spanStatus name .ok, Event.spanEnd name], response)

/-- Whether the `set_attributes` block raises (truthy ARN with fewer than
five colon-separated parts). -/
def arnFault (ctx : Ctx) : Bool :=
  match cloudAccountId ctx.invoked_function_arn with
  | .error _ => true
  | .ok _ => false

/-- Whether `lambda_handler` takes its exceptional path: a bad ARN
(IndexError in `set_attributes`) or a fault in either sub-operation. -/
def faulted (f : Faults) (ctx : Ctx) : Bool :=
  arnFault ctx || f.db.isSome || f.s3.isSome

/-- The 500 response `lambda_function.lambda_handler` builds in its
`except` block, as a function of the request id and clock reading only. -/
def error_response (rid ts : String) : Response :=
  { statusCode := 500
    headers := [("Content-Type", "application/json"), ("X-Request-ID", rid)]
    body := [("error", .str "Internal server error"),
             ("requestId", .str rid),
             ("timestamp", .str (ts ++ "Z"))] }

/-- The 200 response `lambda_function.lambda_handler` builds on the
fault-free path. -/
def success_response (rid ts : String) (epoch procMs : Nat) : Response :=
  { statusCode := 200
    headers := [("Content-Type", "application/json"), ("X-Request-ID", rid)]
    body := [("message", .str "Function executed successfully"),
             ("requestId", .str rid),
             ("result", .obj
               [("request_id", .str rid),
                ("processing_time_ms", .nat procMs),
                ("result", .str "Business logic completed successfully"),
                ("operations", .arr [.str "dynamodb", .str "s3", .str "processing"]),
                ("db_result", .obj
                  [("item_id", .str ("item_" ++ toString epoch)),
                   ("request_id", .str rid),
                   ("status", .str "created")]),
                ("s3_result", .obj
                  [("object_key", .str ("logs/" ++ rid ++ ".json")),
                   ("bucket", .str "demo-bucket"),
                   ("size", .nat 1024)])]),
             ("timestamp", .str (ts ++ "Z"))] }

end lambda_function

namespace api_handler

/-- `call_external_api`: span around a mocked external GET; re-raises any
fault after recording it; `finally` ends the span. `fault` injects an
exception raised in the body, `epoch` is the `int(time.time())` reading. -/
def call_external_api (fault : Option String) (request_id : String) (ts : String)
    (epoch : Nat) : List Event × Except String (List (String × Jv)) :=
  let name := "external_api_call"
  let pre : List Event :=
    [.spanStart name,
     .spanAttrs name [("http.method", .str "GET"),
       ("http.url", .str "https://api.example.com/data"),
       ("external.service", .str "example-api"), ("request.id", .str request_id)],
     .localLog "info" "Making external API call..."]
  match fault with
  | some e =>
      (pre ++ [.spanExn name e, .spanStatus name (.error e), .spanEnd name], .error e)
  | none =>
      let mock_data : List (String × Jv) :=
        [("id", .nat (epoch % 1000)),
         ("data", .str ("Sample data for request " ++ request_id)),
         ("timestamp", .str (ts ++ "Z")),
         ("status", .str "success")]
      (pre ++
       [.spanAttrs name [("http.status_code", .nat 200),
          ("external.response.id", .nat (epoch % 1000)),
          ("external.response.status", .str "success")],
        .spanStatus name .ok, .spanEnd name], .ok mock_data)

/-- `process_api_request`: span around the external call plus extra
processing; re-raises any fault after recording it; `finally` ends the
span. -/
def process_api_request (fault : Option String) (request_id : String)
    (_event : List (String × Jv)) (ts : String) (epoch : Nat) :
    List Event × Except String (List (String × Jv)) :=
  let name := "process_api_request"
  let pre : List Event :=
    [.spanStart name,
     .spanAttrs name [("processing.type", .str "api_business_logic"),
       ("request.id", .str request_id)],
     .localLog "info" ("Processing API request: " ++ request_id)]
  let (ceT, ceR) := call_external_api fault request_id ts epoch
  match ceR with
  | .error e =>
      (pre ++ ceT ++ [.spanExn name e, .spanStatus name (.error e), .spanEnd name], .error e)
  | .ok external_data =>
      let processing_result : List (String × Jv) :=
        [("processed_at", .str (ts ++ "Z")),
         ("external_data", .obj external_data),
         ("request_processed", .bool true)]
      (pre ++ ceT ++
       [.spanAttrs name [("processing.success", .bool true),
          ("external.data.id", .nat (epoch % 1000))],
        .spanStatus name .ok, .spanEnd name], .ok processing_result)

/-- `api_handler.lambda_handler`: the API Gateway entry point. Extracted
request fields default when absent (method `UNKNOWN`, path `/`, empty
dicts, `unknown` identities); nested `requestContext`/`identity` shapes
are dicts in well-formed API Gateway events. `ship0`/`ship1` are the
transport oracles for the request log and the success-or-error log,
`respMs` the measured `response_time`. Always returns a response (the
catch-all `except` builds the 500 response); `finally` ends the top
span. -/
def lambda_handler (env : Env) (fault : Option String) (ship0 ship1 : HttpOutcome)
    (ts tb : String) (epoch respMs : Nat)
    (ctx : Ctx) (event : List (String × Jv)) : List Event × Response :=
  let oo := OpenObserveLogger.init env
  let name := "api_gateway_handler"
  let sl : HttpOutcome → LogData → List Event := fun outcome ld =>
    oo.send_logs "send_api_logs_to_openobserve" "python-lambda-api-openobserve-demo"
      env.fn_name ts outcome ld ctx.aws_request_id
  let method := jgetStr event "httpMethod" "UNKNOWN"
  let path := jgetStr event "path" "/"
  let query_params := jgetObj event "queryStringParameters"
  let headers := jgetObj event "headers"
  let user_agent := jgetStr headers "User-Agent" "unknown"
  let requestContext := jgetObj event "requestContext"
  let identity := jgetObj requestContext "identity"
  let source_ip := jgetStr identity "sourceIp" "unknown"
  let pre : List Event :=
    [Event.spanStart name,
     Event.localLog "info" ("API Gateway event: " ++ dumps (.obj event)),
     Event.spanAttrs name
       [("http.method", .str method), ("http.route", .str path),
        ("http.scheme", .str "https"), ("http.user_agent", .str user_agent),
        ("http.client_ip", .str source_ip),
        ("faas.execution", .str ctx.aws_request_id), ("faas.id", .str ctx.function_name),
        ("cloud.region", .str (env.region.getD ""))]]
  let requestT := sl ship0
    { level := some "info", message := some "API request received",
      metadata := [("http_method", .str method), ("http_path", .str path),
                   ("query_params", .obj query_params), ("user_agent", .str user_agent),
                   ("source_ip", .str source_ip),
                   ("api_gateway_request_id", .str (jgetStr requestContext "requestId" "")),
                   ("headers_count", .nat headers.length)] }
  let (prT, prR) := process_api_request fault ctx.aws_request_id event ts epoch
  match prR with
  | .error e =>
    let error_response : Response :=
      { statusCode := 500
        headers := [("Content-Type", "application/json"),
                    ("Access-Control-Allow-Origin", "*"),
                    ("X-Request-ID", ctx.aws_request_id)]
        body := [("error", .str "Internal server error"),
                 ("requestId", .str ctx.aws_request_id),
                 ("timestamp", .str (ts ++ "Z"))] }
    (pre ++ requestT ++ prT ++
     [Event.localLog "error" ("API Gateway error: " ++ e),
      Event.counterAdd "api_requests_total"
        [("method", method), ("path", path), ("status", "500")]] ++
     sl ship1 { level := some "error", message := some "API request failed",
                metadata := [("error_message", .str e), ("error_traceback", .str tb),
                             ("response_time_ms", .nat respMs),
                             ("http_method", .str method), ("http_path", .str path)] } ++
     [Event.spanExn name e, Event.spanStatus name (.error e), Event.spanEnd name],
     error_response)
  | .ok processing_result =>
    let response : Response :=
      { statusCode := 200
        headers := [("Content-Type", "application/json"),
                    ("Access-Control-Allow-Origin", "*"),
                    ("X-Request-ID", ctx.aws_request_id),
                    ("X-Response-Time", toString respMs ++ "ms")]
        body := [("message", .str "API request processed successfully"),
                 ("requestId", .str ctx.aws_request_id),
                 ("method", .str method), ("path", .str path),
                 ("queryParams", .obj query_params),
                 ("processingResult", .obj processing_result),
                 ("responseTime", .nat respMs),
                 ("timestamp", .str (ts ++ "Z"))] }
    (pre ++ requestT ++ prT ++
     [Event.counterAdd "api_requests_total"
        [("method", method), ("path", path), ("status", "200")],
      Event.histRecord "api_response_time_ms" respMs
        [("method", method), ("path", path)]] ++
     sl ship1 { level := some "info", message := some "API request processed successfully",
                metadata := [("response_time_ms", .nat respMs), ("status_code", .nat 200),
                             ("external_data_id", .nat (epoch % 1000)),
                             ("response_size", .nat (dumps (.obj response.body)).length)] } ++
     [Event.spanAttrs name [("http.status_code", .nat 200),
        ("http.response_time_ms", .nat respMs), ("api.success", .bool true)],
      Event.spanStatus name .ok, Event.spanEnd name],
     response)

/-- The 500 response `api_handler.lambda_handler` builds in its `except`
block, as a function of the request id and clock reading only. -/
def error_response (rid ts : String) : Response :=
  { statusCode := 500
    headers := [("Content-Type", "application/json"),
                ("Access-Control-Allow-Origin", "*"),
                ("X-Request-ID", rid)]
    body := [("error", .str "Internal server error"),
             ("requestId", .str rid),
             ("timestamp", .str (ts ++ "Z"))] }

/-- The 200 response `api_handler.lambda_handler` builds on the fault-free
path, in terms of the extracted request fields. -/
def success_response (rid ts method path : String) (qp : List (String × Jv))
    (epoch respMs : Nat) : Response :=
  { statusCode := 200
    headers := [("Content-Type", "application/json"),
                ("Access-Control-Allow-Origin", "*"),
                ("X-Request-ID", rid),
                ("X-Response-Time", toString respMs ++ "ms")]
    body := [("message", .str "API request processed successfully"),
             ("requestId", .str rid),
             ("method", .str method), ("path", .str path),
             ("queryParams", .obj qp),
             ("processingResult", .obj
               [("processed_at", .str (ts ++ "Z")),
                ("external_data", .obj
                  [("id", .nat (epoch % 1000)),
                   ("data", .str ("Sample data for request " ++ rid)),
                   ("timestamp", .str (ts ++ "Z")),
                   ("status", .str "success")]),
                ("request_processed", .bool true)]),
             ("responseTime", .nat respMs),
             ("timestamp", .str (ts ++ "Z"))] }

end api_handler

/-- `None` an optional environment value that is the empty string (used to
compare an unset variable with one set to `""`). -/
def normEmpty : Option String → Option String
  | some s => if s.isEmpty then none else some s
  | none => none

/-- The environment with each of the four gate variables (endpoint,
username, password, organization) collapsed from `some ""` to `none`. -/
def gateNormalize (env : Env) : Env :=
  { env with base_endpoint := normEmpty env.base_endpoint,
             username := normEmpty env.username,
             password := normEmpty env.password,
             organization := normEmpty env.organization }

/-! Observable projections of a trace. -/

/-- Whether an event is a span start. -/
def isStart : Event → Bool
  | .spanStart _ => true
  | _ => false

/-- Whether an event is a span end. -/
def isEnd : Event → Bool
  | .spanEnd _ => true
  | _ => false

/-- Number of span starts in a trace. -/
def startCount (t : List Event) : Nat := (t.filter isStart).length

/-- Number of span ends in a trace. -/
def endCount (t : List Event) : Nat := (t.filter isEnd).length

/-- The counter increment an event carries, if any. -/
def counterOf : Event → Option (String × List (String × String))
  | .counterAdd c tags => some (c, tags)
  | _ => none

/-- Counter increments (instrument name and tags), in order. -/
def counterEvents (t : List Event) : List (String × List (String × String)) :=
  t.filterMap counterOf

/-- The histogram observation an event carries, if any. -/
def histOf : Event → Option (String × Nat × List (String × String))
  | .histRecord h v tags => some (h, v, tags)
  | _ => none

/-- Histogram observations (instrument name, value, tags), in order. -/
def histEvents (t : List Event) : List (String × Nat × List (String × String)) :=
  t.filterMap histOf

/-- The outbound POST an event carries, if any. -/
def postOf : Event → Option (String × Option String × String × Jv)
  | .httpPost u a c b => some (u, a, c, b)
  | _ => none

/-- Outbound HTTP POSTs (url, auth header, content type, body), in order. -/
def postEvents (t : List Event) : List (String × Option String × String × Jv) :=
  t.filterMap postOf

/-- The Authorization header of the outbound POST an event carries, if any. -/
def authOf : Event → Option (Option String)
  | .httpPost _ a _ _ => some a
  | _ => none

/-- The Authorization headers of the outbound POSTs, in order. -/
def postAuths (t : List Event) : List (Option String) :=
  t.filterMap authOf

/-- The terminal status an event sets on the span named `n`, if any. -/
def statusOf (n : String) : Event → Option SpanStatus
  | .spanStatus m st => if m = n then some st else none
  | _ => none

/-- Terminal statuses set on the span named `n`, in order. -/
def statusEvents (t : List Event) (n : String) : List SpanStatus :=
  t.filterMap (statusOf n)

/-- The message an event logs locally at error level, if any. -/
def errLogOf : Event → Option String
  | .localLog "error" m => some m
  | _ => none

/-- Messages logged locally at error level, in order. -/
def errLogs (t : List Event) : List String :=
  t.filterMap errLogOf

/-! Concrete sample inputs, used by witnesses and counterexamples. -/

/-- An environment with no OpenObserve variables set. -/
def envNil : Env := ⟨none, none, none, none, none, none, none⟩

/-- A fully configured environment. -/
def envFull : Env :=
  ⟨some "https://oo", some "user", some "pass", some "org", none, some "fn",
   some "us-east-1"⟩

/-- A context whose `invoked_function_arn` is the empty string (falsy, so
the account-id extraction is skipped). -/
def ctxGood : Ctx := ⟨"rid-1", "fn", "1", "", 5000⟩

/-- A context whose `invoked_function_arn` is truthy but has no colons, so
`split(':')[4]` raises `IndexError`. -/
def ctxBadArn : Ctx := ⟨"rid-1", "fn", "1", "x", 5000⟩

/-- A 200 transport outcome. -/
def okOutcome : HttpOutcome := .resp 200 ""

/-! Bookkeeping lemmas about one `send_logs` trace, shared by the claim
theorems below. -/

theorem send_logs_filter_isStart (oo : OpenObserveLogger) (sp sv : String)
    (fn : Option String) (ts : String) (oc : HttpOutcome) (ld : LogData)
    (rid : String) :
    ((oo.send_logs sp sv fn ts oc ld rid).filter isStart).length = 1 := by
  unfold OpenObserveLogger.send_logs
  cases oc <;> by_cases h : oo.configured <;>
    simp [h, isStart] <;> split <;> simp [isStart]

theorem send_logs_filter_isEnd (oo : OpenObserveLogger) (sp sv : String)
    (fn : Option String) (ts : String) (oc : HttpOutcome) (ld : LogData)
    (rid : String) :
    ((oo.send_logs sp sv fn ts oc ld rid).filter isEnd).length = 1 := by
  unfold OpenObserveLogger.send_logs
  cases oc <;> by_cases h : oo.configured <;>
    simp [h, isEnd] <;> split <;> simp [isEnd]

theorem send_logs_filterMap_counterOf (oo : OpenObserveLogger) (sp sv : String)
    (fn : Option String) (ts : String) (oc : HttpOutcome) (ld : LogData)
    (rid : String) :
    (oo.send_logs sp sv fn ts oc ld rid).filterMap counterOf = [] := by
  unfold OpenObserveLogger.send_logs
  cases oc <;> by_cases h : oo.configured <;>
    simp [h, counterOf] <;> split <;> simp [counterOf]

theorem send_logs_filterMap_histOf (oo : OpenObserveLogger) (sp sv : String)
    (fn : Option String) (ts : String) (oc : HttpOutcome) (ld : LogData)
    (rid : String) :
    (oo.send_logs sp sv fn ts oc ld rid).filterMap histOf = [] := by
  unfold OpenObserveLogger.send_logs
  cases oc <;> by_cases h : oo.configured <;>
    simp [h, histOf] <;> split <;> simp [histOf]

theorem counterEvents_append (s t : List Event) :
    counterEvents (s ++ t) = counterEvents s ++ counterEvents t := by
  simp [counterEvents]

theorem histEvents_append (s t : List Event) :
    histEvents (s ++ t) = histEvents s ++ histEvents t := by
  simp [histEvents]

theorem postEvents_append (s t : List Event) :
    postEvents (s ++ t) = postEvents s ++ postEvents t := by
  simp [postEvents]

theorem postAuths_append (s t : List Event) :
    postAuths (s ++ t) = postAuths s ++ postAuths t := by
  simp [postAuths]

theorem startCount_append (s t : List Event) :
    startCount (s ++ t) = startCount s + startCount t := by
  simp [startCount]

theorem endCount_append (s t : List Event) :
    endCount (s ++ t) = endCount s + endCount t := by
  simp [endCount]

theorem dget_append (a b : List (String × Jv)) (k : String) :
    dget (a ++ b) k = if (dget b k).isSome then dget b k else dget a k := by
  unfold dget
  rw [List.filter_append]
  rcases h : b.filter (fun p => p.1 == k) with _ | ⟨p, l⟩
  · simp [h]
  · rw [List.getLast?_append_of_ne_nil _ (by simp [h])]
    simp [h]

/-! Characterizations of the two handlers' observable behavior, shared by
the claim theorems below. -/

theorem lf_response (env : Env) (f : lambda_function.Faults) (s0 s1 sp : HttpOutcome)
    (ts tb : String) (epoch procMs : Nat) (ctx : Ctx) (event : List (String × Jv)) :
    (lambda_function.lambda_handler env f s0 s1 sp ts tb epoch procMs ctx event).2 =
    if lambda_function.faulted f ctx then
      lambda_function.error_response ctx.aws_request_id ts
    else
      lambda_function.success_response ctx.aws_request_id ts epoch procMs := by
  unfold lambda_function.lambda_handler lambda_function.faulted lambda_function.arnFault
  rcases h : lambda_function.cloudAccountId ctx.invoked_function_arn with e | acct
  · simp [h, lambda_function.error_response]
  · rcases hd : f.db with _ | m
    · rcases hs : f.s3 with _ | m2
      · simp [h, hd, hs, lambda_function.process_business_logic,
          lambda_function.simulate_dynamodb_operation, lambda_function.simulate_s3_operation,
          lambda_function.success_response, lambda_function.error_response]
      · simp [h, hd, hs, lambda_function.process_business_logic,
          lambda_function.simulate_dynamodb_operation, lambda_function.simulate_s3_operation,
          lambda_function.success_response, lambda_function.error_response]
    · simp [h, hd, lambda_function.process_business_logic,
        lambda_function.simulate_dynamodb_operation,
        lambda_function.success_response, lambda_function.error_response]

theorem ah_response (env : Env) (fault : Option String) (s0 s1 : HttpOutcome)
    (ts tb : String) (epoch respMs : Nat) (ctx : Ctx) (event : List (String × Jv)) :
    (api_handler.lambda_handler env fault s0 s1 ts tb epoch respMs ctx event).2 =
    if fault.isSome then
      api_handler.error_response ctx.aws_request_id ts
    else
      api_handler.success_response ctx.aws_request_id ts
        (jgetStr event "httpMethod" "UNKNOWN") (jgetStr event "path" "/")
        (jgetObj event "queryStringParameters") epoch respMs := by
  unfold api_handler.lambda_handler
  rcases hf : fault with _ | m
  · simp [hf, api_handler.process_api_request, api_handler.call_external_api,
      api_handler.success_response]
  · simp [hf, api_handler.process_api_request, api_handler.call_external_api,
      api_handler.error_response]
theorem lf_counters (env : Env) (f : lambda_function.Faults) (s0 s1 sp : HttpOutcome)
    (ts tb : String) (epoch procMs : Nat) (ctx : Ctx) (event : List (String × Jv)) :
    counterEvents (lambda_function.lambda_handler env f s0 s1 sp ts tb epoch procMs ctx event).1 =
    if lambda_function.arnFault ctx then []
    else [("demo_requests_total",
           [("status", if f.db.isSome || f.s3.isSome then "error" else "success"),
            ("function", env.fn_name.getD "")])] := by
  unfold lambda_function.lambda_handler lambda_function.arnFault counterEvents
  rcases h : lambda_function.cloudAccountId ctx.invoked_function_arn with e | acct
  · simp [h, send_logs_filterMap_counterOf, counterOf]
  · rcases hd : f.db with _ | m
    · rcases hs : f.s3 with _ | m2
      · simp [h, hd, hs, lambda_function.process_business_logic,
          lambda_function.simulate_dynamodb_operation, lambda_function.simulate_s3_operation,
          send_logs_filterMap_counterOf, counterOf]
      · simp [h, hd, hs, lambda_function.process_business_logic,
          lambda_function.simulate_dynamodb_operation, lambda_function.simulate_s3_operation,
          send_logs_filterMap_counterOf, counterOf]
    · simp [h, hd, lambda_function.process_business_logic,
        lambda_function.simulate_dynamodb_operation,
        send_logs_filterMap_counterOf, counterOf]

theorem ah_counters (env : Env) (fault : Option String) (s0 s1 : HttpOutcome)
    (ts tb : String) (epoch respMs : Nat) (ctx : Ctx) (event : List (String × Jv)) :
    counterEvents (api_handler.lambda_handler env fault s0 s1 ts tb epoch respMs ctx event).1 =
    [("api_requests_total",
      [("method", jgetStr event "httpMethod" "UNKNOWN"),
       ("path", jgetStr event "path" "/"),
       ("status", if fault.isSome then "500" else "200")])] := by
  unfold api_handler.lambda_handler counterEvents
  rcases hf : fault with _ | m
  · simp [api_handler.process_api_request, api_handler.call_external_api,
      send_logs_filterMap_counterOf, counterOf]
  · simp [api_handler.process_api_request, api_handler.call_external_api,
      send_logs_filterMap_counterOf, counterOf]

theorem lf_hists (env : Env) (f : lambda_function.Faults) (s0 s1 sp : HttpOutcome)
    (ts tb : String) (epoch procMs : Nat) (ctx : Ctx) (event : List (String × Jv)) :
    histEvents (lambda_function.lambda_handler env f s0 s1 sp ts tb epoch procMs ctx event).1 =
    if lambda_function.faulted f ctx then []
    else [("demo_processing_duration_ms", procMs, [("operation", "business_logic")])] := by
  unfold lambda_function.lambda_handler lambda_function.faulted lambda_function.arnFault histEvents
  rcases h : lambda_function.cloudAccountId ctx.invoked_function_arn with e | acct
  · simp [h, send_logs_filterMap_histOf, histOf]
  · rcases hd : f.db with _ | m
    · rcases hs : f.s3 with _ | m2
      · simp [h, hd, hs, lambda_function.process_business_logic,
          lambda_function.simulate_dynamodb_operation, lambda_function.simulate_s3_operation,
          send_logs_filterMap_histOf, histOf]
      · simp [h, hd, hs, lambda_function.process_business_logic,
          lambda_function.simulate_dynamodb_operation, lambda_function.simulate_s3_operation,
          send_logs_filterMap_histOf, histOf]
    · simp [h, hd, lambda_function.process_business_logic,
        lambda_function.simulate_dynamodb_operation,
        send_logs_filterMap_histOf, histOf]

theorem ah_hists (env : Env) (fault : Option String) (s0 s1 : HttpOutcome)
    (ts tb : String) (epoch respMs : Nat) (ctx : Ctx) (event : List (String × Jv)) :
    histEvents (api_handler.lambda_handler env fault s0 s1 ts tb epoch respMs ctx event).1 =
    if fault.isSome then []
    else [("api_response_time_ms", respMs,
           [("method", jgetStr event "httpMethod" "UNKNOWN"),
            ("path", jgetStr event "path" "/")])] := by
  unfold api_handler.lambda_handler histEvents
  rcases hf : fault with _ | m
  · simp [api_handler.process_api_request, api_handler.call_external_api,
      send_logs_filterMap_histOf, histOf]
  · simp [api_handler.process_api_request, api_handler.call_external_api,
      send_logs_filterMap_histOf, histOf]

theorem lf_span_balance (env : Env) (f : lambda_function.Faults) (s0 s1 sp : HttpOutcome)
    (ts tb : String) (epoch procMs : Nat) (ctx : Ctx) (event : List (String × Jv)) :
    startCount (lambda_function.lambda_handler env f s0 s1 sp ts tb epoch procMs ctx event).1 =
    endCount (lambda_function.lambda_handler env f s0 s1 sp ts tb epoch procMs ctx event).1 := by
  unfold lambda_function.lambda_handler startCount endCount
  rcases h : lambda_function.cloudAccountId ctx.invoked_function_arn with e | acct
  · simp [h, send_logs_filter_isStart, send_logs_filter_isEnd, isStart, isEnd]
  · rcases hd : f.db with _ | m
    · rcases hs : f.s3 with _ | m2
      · simp [h, hd, hs, lambda_function.process_business_logic,
          lambda_function.simulate_dynamodb_operation, lambda_function.simulate_s3_operation,
          send_logs_filter_isStart, send_logs_filter_isEnd, isStart, isEnd]
      · simp [h, hd, hs, lambda_function.process_business_logic,
          lambda_function.simulate_dynamodb_operation, lambda_function.simulate_s3_operation,
          send_logs_filter_isStart, send_logs_filter_isEnd, isStart, isEnd]
    · simp [h, hd, lambda_function.process_business_logic,
        lambda_function.simulate_dynamodb_operation,
        send_logs_filter_isStart, send_logs_filter_isEnd, isStart, isEnd]

theorem ah_span_balance (env : Env) (fault : Option String) (s0 s1 : HttpOutcome)
    (ts tb : String) (epoch respMs : Nat) (ctx : Ctx) (event : List (String × Jv)) :
    startCount (api_handler.lambda_handler env fault s0 s1 ts tb epoch respMs ctx event).1 =
    endCount (api_handler.lambda_handler env fault s0 s1 ts tb epoch respMs ctx event).1 := by
  unfold api_handler.lambda_handler startCount endCount
  rcases hf : fault with _ | m
  · simp [api_handler.process_api_request, api_handler.call_external_api,
      send_logs_filter_isStart, send_logs_filter_isEnd, isStart, isEnd]
  · simp [api_handler.process_api_request, api_handler.call_external_api,
      send_logs_filter_isStart, send_logs_filter_isEnd, isStart, isEnd]

/-- `truthy` is invariant under collapsing `some ""` to `none`. -/
theorem truthy_normEmpty (o : Option String) : truthy (normEmpty o) = truthy o := by
  rcases o with _ | s
  · rfl
  · unfold normEmpty truthy
    by_cases h : s.isEmpty <;> simp [h]

/-- A truthy optional string is unchanged by `normEmpty`. -/
theorem normEmpty_of_truthy (o : Option String) (h : truthy o = true) : normEmpty o = o := by
  rcases o with _ | s
  · rfl
  · unfold truthy at h
    simp only [Bool.not_eq_true'] at h
    unfold normEmpty
    simp [h]

/-- C1: for every invocation of either handler, exactly one response is
returned, with `statusCode` 500 exactly when a sub-operation (or the
ARN-attribute extraction) faulted and 200 otherwise — in particular the
status is always in `{200, 500}` — and the response is invariant under
every choice of log-shipping transport outcomes, so no failure of log
shipping alters or blocks the outcome. Both embedded handlers are total
functions of their inputs, mirroring the catch-all `except` blocks: no
exception propagates to the caller. -/
theorem claim_C1 (env : Env) (f : lambda_function.Faults) (fault : Option String)
    (s0 s1 sp t0 t1 tp u0 u1 : HttpOutcome)
    (ts tb : String) (epoch procMs respMs : Nat) (ctx : Ctx)
    (event : List (String × Jv)) :
    ((lambda_function.lambda_handler env f s0 s1 sp ts tb epoch procMs ctx event).2.statusCode =
       if lambda_function.faulted f ctx then 500 else 200) ∧
    ((lambda_function.lambda_handler env f s0 s1 sp ts tb epoch procMs ctx event).2 =
       (lambda_function.lambda_handler env f t0 t1 tp ts tb epoch procMs ctx event).2) ∧
    ((api_handler.lambda_handler env fault u0 u1 ts tb epoch respMs ctx event).2.statusCode =
       if fault.isSome then 500 else 200) ∧
    ((api_handler.lambda_handler env fault u0 u1 ts tb epoch respMs ctx event).2 =
       (api_handler.lambda_handler env fault t0 t1 ts tb epoch respMs ctx event).2) := by
  refine ⟨?_, ?_, ?_, ?_⟩
  · rw [lf_response]
    split <;> rfl
  · rw [lf_response, lf_response]
  · rw [ah_response]
    split <;> rfl
  · rw [ah_response, ah_response]

/-- C7: in every invocation of either handler, over the whole trace —
top-level span, the sub-operation spans, and every `send_logs` span — the
number of span starts equals the number of span ends, for every fault
configuration and every transport outcome. -/
theorem claim_C7 (env : Env) (f : lambda_function.Faults) (fault : Option String)
    (s0 s1 sp u0 u1 : HttpOutcome) (ts tb : String) (epoch procMs respMs : Nat)
    (ctx : Ctx) (event : List (String × Jv)) :
    startCount (lambda_function.lambda_handler env f s0 s1 sp ts tb epoch procMs ctx event).1 =
      endCount (lambda_function.lambda_handler env f s0 s1 sp ts tb epoch procMs ctx event).1 ∧
    startCount (api_handler.lambda_handler env fault u0 u1 ts tb epoch respMs ctx event).1 =
      endCount (api_handler.lambda_handler env fault u0 u1 ts tb epoch respMs ctx event).1 :=
  ⟨lf_span_balance env f s0 s1 sp ts tb epoch procMs ctx event,
   ah_span_balance env fault u0 u1 ts tb epoch respMs ctx event⟩

/-- C2 counterexample: in `lambda_function.lambda_handler`, a context whose
`invoked_function_arn` is `"x"` (truthy, fewer than five colon-separated
parts) makes `set_attributes` raise before `process_business_logic` runs:
the invocation returns the 500 response but the request counter is never
incremented, refuting "the request counter is incremented exactly once for
every top-level invocation". -/
theorem claim_C2_counterexample :
    counterEvents (lambda_function.lambda_handler envNil ⟨none, none⟩
      okOutcome okOutcome okOutcome "T" "TB" 7 42 ctxBadArn []).1 = [] ∧
    (lambda_function.lambda_handler envNil ⟨none, none⟩
      okOutcome okOutcome okOutcome "T" "TB" 7 42 ctxBadArn []).2.statusCode = 500 := by
  constructor
  · decide
  · rfl

/-- C2 amended: in `api_handler`, the counter is incremented exactly once
per invocation, with status tag `"200"` iff the response status is 200,
else `"500"`. In `lambda_function`, the counter is incremented by
`process_business_logic`, not by the top-level handler: when the handler
reaches `process_business_logic` (no ARN fault), the counter is
incremented exactly once, with tag `"success"` iff the response status is
200, else `"error"`; a fault raised in the handler before
`process_business_logic` (bad ARN) yields a 500 response with no
increment. -/
theorem claim_C2_amended (env : Env) (f : lambda_function.Faults) (fault : Option String)
    (s0 s1 sp u0 u1 : HttpOutcome) (ts tb : String) (epoch procMs respMs : Nat)
    (ctx : Ctx) (event : List (String × Jv)) :
    counterEvents (api_handler.lambda_handler env fault u0 u1 ts tb epoch respMs ctx event).1 =
      [("api_requests_total",
        [("method", jgetStr event "httpMethod" "UNKNOWN"),
         ("path", jgetStr event "path" "/"),
         ("status",
          if (api_handler.lambda_handler env fault u0 u1 ts tb epoch respMs ctx event).2.statusCode = 200
          then "200" else "500")])] ∧
    counterEvents (lambda_function.lambda_handler env f s0 s1 sp ts tb epoch procMs ctx event).1 =
      (if lambda_function.arnFault ctx then []
       else
        [("demo_requests_total",
          [("status",
            if (lambda_function.lambda_handler env f s0 s1 sp ts tb epoch procMs ctx event).2.statusCode = 200
            then "success" else "error"),
           ("function", env.fn_name.getD "")])]) := by
  constructor
  · rw [ah_counters, ah_response]
    rcases fault with _ | m <;>
      simp [api_handler.error_response, api_handler.success_response]
  · rw [lf_counters, lf_response]
    by_cases harn : lambda_function.arnFault ctx
    · simp [harn]
    · rcases hd : f.db with _ | m <;> rcases hs : f.s3 with _ | m2 <;>
        simp [harn, hd, hs, lambda_function.faulted,
          lambda_function.error_response, lambda_function.success_response]

/-- C3: whenever a sub-operation raises a fault, the 500 response of either
handler is exactly the record shown: status 500, correlation headers, and
a body holding only the generic error message, the request id, and the
timestamp. The right-hand sides do not mention the fault message `e`/`m`
or the stack-trace text `tb`, so the response is independent of the fault
detail (which reaches only the log and span events of the trace): no
substring of it can flow into the body. -/
theorem claim_C3 (env : Env) (f : lambda_function.Faults) (e : String)
    (s0 s1 sp u0 u1 : HttpOutcome) (ts tb : String) (epoch procMs respMs : Nat)
    (ctx : Ctx) (event : List (String × Jv))
    (h : lambda_function.faulted f ctx = true) :
    (lambda_function.lambda_handler env f s0 s1 sp ts tb epoch procMs ctx event).2 =
      { statusCode := 500
        headers := [("Content-Type", "application/json"),
                    ("X-Request-ID", ctx.aws_request_id)]
        body := [("error", .str "Internal server error"),
                 ("requestId", .str ctx.aws_request_id),
                 ("timestamp", .str (ts ++ "Z"))] } ∧
    (api_handler.lambda_handler env (some e) u0 u1 ts tb epoch respMs ctx event).2 =
      { statusCode := 500
        headers := [("Content-Type", "application/json"),
                    ("Access-Control-Allow-Origin", "*"),
                    ("X-Request-ID", ctx.aws_request_id)]
        body := [("error", .str "Internal server error"),
                 ("requestId", .str ctx.aws_request_id),
                 ("timestamp", .str (ts ++ "Z"))] } := by
  constructor
  · rw [lf_response, h]
    simp [lambda_function.error_response]
  · rw [ah_response]
    simp [api_handler.error_response]

/-- Witness for C3 at a concrete faulting input. -/
theorem claim_C3_witness :
    lambda_function.faulted ⟨some "boom", none⟩ ctxGood = true ∧
    (lambda_function.lambda_handler envNil ⟨some "boom", none⟩
       okOutcome okOutcome okOutcome "T" "TB" 7 42 ctxGood []).2.body =
      [("error", .str "Internal server error"),
       ("requestId", .str "rid-1"),
       ("timestamp", .str "TZ")] :=
  ⟨rfl, by
    rw [(claim_C3 envNil ⟨some "boom", none⟩ "x" okOutcome okOutcome okOutcome
          okOutcome okOutcome "T" "TB" 7 42 42 ctxGood [] rfl).1]
    rfl⟩

/-- C4: when any of the four gate values (endpoint, username, password,
organization) is missing (falsy), `send_logs` emits no outbound POST; its
whole trace is the span plus one local info log, so it returns normally as
a silent no-op. Moreover neither handler's response depends on the
environment at all, so the enclosing invocation completes exactly as it
would with any other sink configuration. -/
theorem claim_C4 (oo : OpenObserveLogger) (sp sv : String) (fn : Option String)
    (ts0 : String) (oc : HttpOutcome) (ld : LogData) (rid : String)
    (env1 env2 : Env) (f : lambda_function.Faults) (fa : Option String)
    (s0 s1 sp2 u0 u1 : HttpOutcome) (ts tb : String) (epoch procMs respMs : Nat)
    (ctx : Ctx) (event : List (String × Jv))
    (h : oo.configured = false) :
    oo.send_logs sp sv fn ts0 oc ld rid =
      [Event.spanStart sp,
       Event.localLog "info"
         "OpenObserve credentials not configured, skipping custom log send",
       Event.spanEnd sp] ∧
    postEvents (oo.send_logs sp sv fn ts0 oc ld rid) = [] ∧
    (lambda_function.lambda_handler env1 f s0 s1 sp2 ts tb epoch procMs ctx event).2 =
      (lambda_function.lambda_handler env2 f s0 s1 sp2 ts tb epoch procMs ctx event).2 ∧
    (api_handler.lambda_handler env1 fa u0 u1 ts tb epoch respMs ctx event).2 =
      (api_handler.lambda_handler env2 fa u0 u1 ts tb epoch respMs ctx event).2 := by
  refine ⟨?_, ?_, ?_, ?_⟩
  · unfold OpenObserveLogger.send_logs
    simp [h]
  · unfold OpenObserveLogger.send_logs postEvents
    simp [h, postOf]
  · rw [lf_response, lf_response]
  · rw [ah_response, ah_response]

/-- Witness for C4 at a concrete unconfigured logger. -/
theorem claim_C4_witness :
    (OpenObserveLogger.init envNil).configured = false ∧
    postEvents ((OpenObserveLogger.init envNil).send_logs "s" "v" none "T"
      okOutcome ⟨none, none, []⟩ "rid") = [] :=
  ⟨rfl,
   (claim_C4 (OpenObserveLogger.init envNil) "s" "v" none "T" okOutcome
     ⟨none, none, []⟩ "rid" envNil envNil ⟨none, none⟩ none okOutcome okOutcome
     okOutcome okOutcome okOutcome "T" "TB" 0 0 0 ctxGood [] rfl).2.1⟩

/-- C5: with a complete sink configuration, one `send_logs` call sets the
shipper span's terminal status to OK exactly when the HTTP status is in
[200, 300); any other status, and any transport exception, produces one
local error log carrying the failure detail and sets the span status to
ERROR with that detail. In every case the trace runs to the span's end
(the `finally`): the exception is swallowed and, `send_logs` being a total
function into traces, nothing propagates to the caller. -/
theorem claim_C5 (oo : OpenObserveLogger) (sp sv : String) (fn : Option String)
    (ts : String) (ld : LogData) (rid : String) (status : Nat) (data e : String)
    (h : oo.configured = true) :
    statusEvents (oo.send_logs sp sv fn ts (.resp status data) ld rid) sp =
      (if 200 ≤ status ∧ status < 300 then [.ok]
       else [.error ("Failed to send logs to OpenObserve: " ++ toString status ++ " " ++ data)]) ∧
    errLogs (oo.send_logs sp sv fn ts (.resp status data) ld rid) =
      (if 200 ≤ status ∧ status < 300 then []
       else ["Failed to send logs to OpenObserve: " ++ toString status ++ " " ++ data]) ∧
    statusEvents (oo.send_logs sp sv fn ts (.exn e) ld rid) sp =
      [.error ("Error sending logs to OpenObserve: " ++ e)] ∧
    errLogs (oo.send_logs sp sv fn ts (.exn e) ld rid) =
      ["Error sending logs to OpenObserve: " ++ e] ∧
    (∀ oc : HttpOutcome,
      (oo.send_logs sp sv fn ts oc ld rid).getLast? = some (.spanEnd sp)) := by
  refine ⟨?_, ?_, ?_, ?_, ?_⟩
  · unfold OpenObserveLogger.send_logs statusEvents
    by_cases h2 : 200 ≤ status ∧ status < 300 <;> simp [h, h2, statusOf]
  · unfold OpenObserveLogger.send_logs errLogs
    by_cases h2 : 200 ≤ status ∧ status < 300 <;> simp [h, h2, errLogOf]
  · unfold OpenObserveLogger.send_logs statusEvents
    simp [h, statusOf]
  · unfold OpenObserveLogger.send_logs errLogs
    simp [h, errLogOf]
  · intro oc
    unfold OpenObserveLogger.send_logs
    rw [List.getLast?_concat]

/-- Witness for C5 at a concrete configured logger and a 503 status. -/
theorem claim_C5_witness :
    (OpenObserveLogger.init envFull).configured = true ∧
    statusEvents ((OpenObserveLogger.init envFull).send_logs "s" "v" none "T"
        (.resp 503 "bad") ⟨none, none, []⟩ "rid") "s" =
      [.error "Failed to send logs to OpenObserve: 503 bad"] :=
  ⟨rfl, by
    rw [(claim_C5 (OpenObserveLogger.init envFull) "s" "v" none "T"
      ⟨none, none, []⟩ "rid" 503 "bad" "x" rfl).1]
    rfl⟩

/-- C6: with a complete sink configuration, `send_logs` issues exactly one
POST, to `{endpoint}/api/{organization}/{stream}/_json`, carrying the
derived Basic-auth header and JSON content type, and its body is a JSON
array of exactly one object: the fixed envelope with the caller's metadata
spread on top. Lookup in that object returns the metadata value whenever
the key occurs in the metadata (last-write-wins shallow merge), and the
envelope value otherwise. -/
theorem claim_C6 (oo : OpenObserveLogger) (sp sv : String) (fn : Option String)
    (ts : String) (oc : HttpOutcome) (ld : LogData) (rid : String) (k : String)
    (h : oo.configured = true) :
    postEvents (oo.send_logs sp sv fn ts oc ld rid) =
      [((oo.base_endpoint.getD "") ++ "/api/" ++ (oo.organization.getD "") ++ "/" ++
          oo.stream ++ "/_json",
        oo.auth_header, "application/json",
        .arr [.obj (logEnvelope sv fn ts ld rid ++ ld.metadata)])] ∧
    dget (logEnvelope sv fn ts ld rid ++ ld.metadata) k =
      (if (dget ld.metadata k).isSome then dget ld.metadata k
       else dget (logEnvelope sv fn ts ld rid) k) := by
  constructor
  · unfold OpenObserveLogger.send_logs postEvents
    cases oc <;> simp [h, postOf] <;> split <;> simp [postOf]
  · exact dget_append _ _ _

/-- Witness for C6 at a concrete configured logger, with a metadata key overriding the envelope. -/
theorem claim_C6_witness :
    (OpenObserveLogger.init envFull).configured = true ∧
    postEvents ((OpenObserveLogger.init envFull).send_logs "s" "v" (some "fn") "T"
        okOutcome ⟨some "info", some "hi", [("level", .str "OVERRIDE")]⟩ "rid") =
      [("https://oo/api/org/default/_json",
        some ("Basic " ++ base64 "user:pass"), "application/json",
        .arr [.obj
          [("timestamp", .str "TZ"), ("level", .str "info"), ("message", .str "hi"),
           ("service", .str "v"), ("function_name", .str "fn"),
           ("request_id", .str "rid"), ("level", .str "OVERRIDE")]])] :=
  ⟨rfl, by
    rw [(claim_C6 (OpenObserveLogger.init envFull) "s" "v" (some "fn") "T"
      okOutcome ⟨some "info", some "hi", [("level", .str "OVERRIDE")]⟩ "rid" "level" rfl).1]
    rfl⟩

/-- C8 counterexample: in `api_handler.lambda_handler` a faulting
sub-operation yields the 500 response with no histogram observation at
all — the `except` block increments only the counter — refuting "the
duration histogram is recorded once ... for both the success and the
failure outcome". (`lambda_function.process_business_logic` likewise skips
`processing_duration.record` on its error path.) -/
theorem claim_C8_counterexample :
    histEvents (api_handler.lambda_handler envNil (some "boom") okOutcome okOutcome
      "T" "TB" 7 42 ctxGood []).1 = [] ∧
    (api_handler.lambda_handler envNil (some "boom") okOutcome okOutcome
      "T" "TB" 7 42 ctxGood []).2.statusCode = 500 := by
  constructor
  · decide
  · rfl

/-- C8 amended: per top-level request the counter is incremented once with
the final outcome tags, and the duration histogram is recorded — once,
with the measured duration in milliseconds — only on the success path; on
the failure path no histogram observation is made, in either module. -/
theorem claim_C8_amended (env : Env) (f : lambda_function.Faults) (fault : Option String)
    (s0 s1 sp u0 u1 : HttpOutcome) (ts tb : String) (epoch procMs respMs : Nat)
    (ctx : Ctx) (event : List (String × Jv)) :
    histEvents (api_handler.lambda_handler env fault u0 u1 ts tb epoch respMs ctx event).1 =
      (if fault.isSome then []
       else [("api_response_time_ms", respMs,
              [("method", jgetStr event "httpMethod" "UNKNOWN"),
               ("path", jgetStr event "path" "/")])]) ∧
    (counterEvents (api_handler.lambda_handler env fault u0 u1 ts tb epoch respMs ctx event).1).length = 1 ∧
    histEvents (lambda_function.lambda_handler env f s0 s1 sp ts tb epoch procMs ctx event).1 =
      (if lambda_function.faulted f ctx then []
       else [("demo_processing_duration_ms", procMs, [("operation", "business_logic")])]) := by
  refine ⟨ah_hists env fault u0 u1 ts tb epoch respMs ctx event, ?_,
    lf_hists env f s0 s1 sp ts tb epoch procMs ctx event⟩
  rw [ah_counters]
  rfl

/-- C9 counterexample: a successful `lambda_function.lambda_handler`
invocation returns status 200 whose headers are exactly Content-Type and
X-Request-ID — there is no Access-Control-Allow-Origin and no
response-time header — and whose body has no `responseTime` field,
refuting the claim's header/body list for this handler. -/
theorem claim_C9_counterexample :
    (lambda_function.lambda_handler envNil ⟨none, none⟩ okOutcome okOutcome okOutcome
       "T" "TB" 7 42 ctxGood []).2.statusCode = 200 ∧
    (lambda_function.lambda_handler envNil ⟨none, none⟩ okOutcome okOutcome okOutcome
       "T" "TB" 7 42 ctxGood []).2.headers.map Prod.fst =
      ["Content-Type", "X-Request-ID"] ∧
    ((lambda_function.lambda_handler envNil ⟨none, none⟩ okOutcome okOutcome okOutcome
       "T" "TB" 7 42 ctxGood []).2.headers.map Prod.fst).contains
      "Access-Control-Allow-Origin" = false ∧
    ((lambda_function.lambda_handler envNil ⟨none, none⟩ okOutcome okOutcome okOutcome
       "T" "TB" 7 42 ctxGood []).2.body.map Prod.fst).contains "responseTime" = false := by
  refine ⟨rfl, rfl, by decide, by decide⟩

/-- C9 amended: on the fault-free path, `api_handler` returns the full
claimed envelope (status 200; Content-Type, CORS allow-origin, request-id
and response-time headers; body with message, requestId, method, path,
queryParams, processingResult, responseTime, timestamp), while
`lambda_function` returns status 200 with only Content-Type and request-id
headers and a body of message, requestId, result, timestamp — no CORS
header, no response-time header, no responseTime field. -/
theorem claim_C9_amended (env : Env) (s0 s1 sp u0 u1 : HttpOutcome) (ts tb : String)
    (epoch procMs respMs : Nat) (ctx : Ctx) (event : List (String × Jv)) (acct : String)
    (h : lambda_function.cloudAccountId ctx.invoked_function_arn = Except.ok acct) :
    (api_handler.lambda_handler env none u0 u1 ts tb epoch respMs ctx event).2 =
      api_handler.success_response ctx.aws_request_id ts
        (jgetStr event "httpMethod" "UNKNOWN") (jgetStr event "path" "/")
        (jgetObj event "queryStringParameters") epoch respMs ∧
    (lambda_function.lambda_handler env ⟨none, none⟩ s0 s1 sp ts tb epoch procMs ctx event).2 =
      lambda_function.success_response ctx.aws_request_id ts epoch procMs := by
  constructor
  · rw [ah_response]
    rfl
  · rw [lf_response]
    have hf : lambda_function.faulted ⟨none, none⟩ ctx = false := by
      unfold lambda_function.faulted lambda_function.arnFault
      rw [h]
      rfl
    rw [hf]
    rfl

/-- Witness for the amended C9 at a concrete fault-free input. -/
theorem claim_C9_amended_witness :
    lambda_function.cloudAccountId "" = Except.ok "" ∧
    (lambda_function.lambda_handler envNil ⟨none, none⟩ okOutcome okOutcome okOutcome
       "T" "TB" 7 42 ctxGood []).2 =
      lambda_function.success_response "rid-1" "T" 7 42 :=
  ⟨rfl, (claim_C9_amended envNil okOutcome okOutcome okOutcome okOutcome okOutcome
     "T" "TB" 7 42 42 ctxGood [] "" rfl).2⟩

/-- C10: every outbound POST a logger constructed from the environment can
issue carries the non-None Authorization header `"Basic " ++ base64` of
`username:password` — the completeness gate re-checks the same username
and password truthiness that governed the auth derivation in `__init__`,
so a POST with a missing header is unreachable (the gate-false case issues
no POST at all). And collapsing any of the four gate variables from the
empty string to unset leaves the whole `send_logs` trace unchanged: an
empty-string variable disables shipping exactly like an unset one. -/
theorem claim_C10 (env : Env) (sp sv : String) (fn : Option String) (ts : String)
    (oc : HttpOutcome) (ld : LogData) (rid : String) :
    postAuths ((OpenObserveLogger.init env).send_logs sp sv fn ts oc ld rid) =
      (if (OpenObserveLogger.init env).configured then
        [some ("Basic " ++
          base64 ((env.username.getD "") ++ ":" ++ (env.password.getD "")))]
       else []) ∧
    (OpenObserveLogger.init env).send_logs sp sv fn ts oc ld rid =
      (OpenObserveLogger.init (gateNormalize env)).send_logs sp sv fn ts oc ld rid := by
  constructor
  · unfold OpenObserveLogger.send_logs postAuths OpenObserveLogger.init
      OpenObserveLogger.configured
    by_cases hb : truthy env.base_endpoint <;>
    by_cases hu : truthy env.username <;>
    by_cases hp : truthy env.password <;>
    by_cases ho : truthy env.organization <;>
      cases oc <;> simp [hb, hu, hp, ho, authOf] <;> split <;> simp [authOf]
  · unfold OpenObserveLogger.send_logs OpenObserveLogger.init
      OpenObserveLogger.configured gateNormalize
    simp only [truthy_normEmpty]
    by_cases hb : truthy env.base_endpoint
    · by_cases hu : truthy env.username
      · by_cases hp : truthy env.password
        · by_cases ho : truthy env.organization
          · simp [hb, hu, hp, ho, normEmpty_of_truthy _ hb, normEmpty_of_truthy _ hu,
              normEmpty_of_truthy _ hp, normEmpty_of_truthy _ ho]
          · simp [hb, hu, hp, ho]
        · simp [hb, hu, hp]
      · simp [hb, hu]
    · simp [hb]
